import Mathlib

/-!
Shallow embedding of `src/battle/xe_battle_lib_v2.py` (the DWDex battle
engine): data model (`BattleMove`, `BattleBall`, `TurnAction`,
`BattleInstance`), move execution, single-action resolution, turn
resolution and match creation, followed by theorems checking the
specification's claims against this embedding.

Randomness: every `random.random()` / `random.uniform(..)` draw of the
Python code is passed in explicitly (a `Rolls` record per executed action
and a tie-break rational per turn), so each function is a pure function of
its inputs exactly as the source computes it.
-/

set_option allowUnsafeReducibility true
attribute [semireducible] Rat.mul Rat.add Rat.inv Rat.sub Rat.neg

namespace XeBattle

/-- Python `int(q)` on a rational: truncation toward zero
(`q.num.tdiv q.den` is exactly that, since `q.den > 0`). -/
def pyInt (q : ℚ) : ℤ :=
  q.num.tdiv q.den

/-- `class MoveType(Enum)`: types of moves available in battle. -/
inductive MoveType where
  | attack
  | heavy_attack
  | defend
  | heal
deriving DecidableEq, Repr

/-- `@dataclass BattleMove` (the static fields; `execute` is below). -/
structure BattleMove where
  name : String
  move_type : MoveType
  description : String
  emoji : String
deriving DecidableEq, Repr

/-- `@dataclass BattleBall`, after `__post_init__` has run (see
`BattleBall.make`). Health and stats are Python ints, hence `ℤ`. -/
structure BattleBall where
  name : String
  owner : String
  health : ℤ
  attack : ℤ
  max_health : ℤ
  emoji : String
  dead : Bool
  defending : Bool
deriving DecidableEq, Repr

/-- Constructing a `BattleBall`: the dataclass constructor followed by
`__post_init__`, which replaces a zero `max_health` by `health`.
Defaults mirror the dataclass (`max_health=0`, `emoji=""`,
`dead=False`, `defending=False`). -/
def BattleBall.make (name owner : String) (health attack : ℤ)
    (max_health : ℤ := 0) (emoji : String := "")
    (dead : Bool := false) (defending : Bool := false) : BattleBall :=
  { name := name
    owner := owner
    health := health
    attack := attack
    max_health := if max_health = 0 then health else max_health
    emoji := emoji
    dead := dead
    defending := defending }

/-- The `result` dict built by `BattleMove.execute` (and by the error
paths of `_execute_single_action`). -/
structure MoveResult where
  success : Bool
  damage : ℤ
  heal : ℤ
  message : String
  crit : Bool
  miss : Bool
deriving DecidableEq, Repr

/-- The empty result dict initialised at the top of `execute`. -/
def MoveResult.init : MoveResult :=
  { success := false
    damage := 0
    heal := 0
    message := ""
    crit := false
    miss := false }

/-- The random draws an executed action may consume, one field per
`random.random()` / `random.uniform` call site in `BattleMove.execute`:
`missRoll` for the 10% universal miss check, `heavyMissRoll` for the
heavy attack's extra 30% miss check, `dmgMult` for the damage
multiplier draw, `critRoll` for the 10% crit check. -/
structure Rolls where
  missRoll : ℚ
  heavyMissRoll : ℚ
  dmgMult : ℚ
  critRoll : ℚ
deriving DecidableEq, Repr

/-- Lines 87–91 of the source: the knockout clamp at the end of the
fall-through path of `execute` (`if defender.health <= 0: health = 0;
dead = True`). Not applied on the early-return miss paths. -/
def koClamp (b : BattleBall) : BattleBall :=
  if b.health ≤ 0 then { b with health := 0, dead := true } else b

/-- `BattleMove.execute(self, attacker, defender)`: returns the result
dict and the updated attacker and defender (the Python mutates them in
place). -/
def BattleMove.execute (m : BattleMove) (r : Rolls)
    (attacker defender : BattleBall) :
    MoveResult × BattleBall × BattleBall :=
  let result := MoveResult.init
  -- Check for miss (10% base chance)
  if r.missRoll < 1/10 then
    ({ result with miss := true, message := attacker.name ++ " missed!" },
     attacker, defender)
  else
    match m.move_type with
    | .attack =>
      -- Normal attack: 80-120% of attack stat
      let damage := pyInt ((attacker.attack : ℚ) * r.dmgMult)
      -- 10% crit chance (1.5x damage)
      let dc : ℤ × Bool :=
        if r.critRoll < 1/10 then (pyInt ((damage : ℚ) * (3/2)), true)
        else (damage, false)
      let damage := dc.1
      let defender := { defender with health := defender.health - damage }
      let result := { result with
        damage := damage
        success := true
        crit := dc.2
        message := if dc.2 then
            "💥 Critical hit! " ++ attacker.name ++ " dealt damage to " ++
              defender.name ++ "!"
          else
            attacker.name ++ " dealt damage to " ++ defender.name ++ "!" }
      (result, attacker, koClamp defender)
    | .heavy_attack =>
      -- Heavy attack: 120-180% of attack stat, but 30% miss chance
      if r.heavyMissRoll < 3/10 then
        ({ result with
           miss := true
           message := attacker.name ++ " heavy attack missed!" },
         attacker, defender)
      else
        let damage := pyInt ((attacker.attack : ℚ) * r.dmgMult)
        let defender := { defender with health := defender.health - damage }
        let result := { result with
          damage := damage
          success := true
          message := "💪 " ++ attacker.name ++ " landed a heavy attack on " ++
            defender.name ++ "!" }
        (result, attacker, koClamp defender)
    | .defend =>
      -- Defend: reduce next incoming damage by 50%
      let attacker := { attacker with defending := true }
      let result := { result with
        success := true
        message := "🛡️ " ++ attacker.name ++ " is defending!" }
      (result, attacker, koClamp defender)
    | .heal =>
      -- Heal: restore 20% of max HP (can't exceed max)
      let heal_amount := pyInt ((attacker.max_health : ℚ) * (1/5))
      let old_health := attacker.health
      let attacker := { attacker with
        health := min (attacker.health + heal_amount) attacker.max_health }
      let actual_heal := attacker.health - old_health
      let result := { result with
        heal := actual_heal
        success := true
        message := "💚 " ++ attacker.name ++ " healed!" }
      (result, attacker, koClamp defender)

/-- `@dataclass TurnAction`: a player's action in a turn. -/
structure TurnAction where
  player : String
  ball_index : ℤ
  move : String
  target_index : ℤ := 0
deriving DecidableEq, Repr

/-- The `MOVES` dict. -/
def MOVES_get (key : String) : Option BattleMove :=
  if key = "attack" then
    some ⟨"Quick Attack", .attack, "A standard attack", "⚔️"⟩
  else if key = "heavy" then
    some ⟨"Heavy Strike", .heavy_attack, "Powerful but risky", "💪"⟩
  else if key = "defend" then
    some ⟨"Defend", .defend, "Brace for impact", "🛡️"⟩
  else if key = "heal" then
    some ⟨"Recover", .heal, "Restore some HP", "💚"⟩
  else none

/-- The `turn_result` dict built by `execute_turn`: turn number, event
list, and the two active balls as they stood when the round started. -/
structure TurnResult where
  turn : ℤ
  events : List MoveResult
  p1_active : Option BattleBall
  p2_active : Option BattleBall
deriving DecidableEq, Repr

/-- `@dataclass BattleInstance`. `winner` starts as the empty string and
is assigned `get_winner()` when an over-check fires (the Python
assignment happens only under `is_battle_over()`, where `get_winner()`
always returns a string). -/
structure BattleInstance where
  p1_name : String
  p2_name : String
  p1_balls : List BattleBall := []
  p2_balls : List BattleBall := []
  p1_active_index : ℕ := 0
  p2_active_index : ℕ := 0
  current_turn : ℤ := 0
  turn_history : List TurnResult := []
  winner : String := ""
  p1_ready : Bool := false
  p2_ready : Bool := false
deriving DecidableEq, Repr

namespace BattleInstance

/-- `get_active_ball(player)`: the ball at the player's active index, if
in range (`None` otherwise). A `player` string other than `p1_name` is
treated as player 2, exactly as the Python `if/else` does. -/
def get_active_ball (b : BattleInstance) (player : String) :
    Option BattleBall :=
  if player = b.p1_name then b.p1_balls.get? b.p1_active_index
  else b.p2_balls.get? b.p2_active_index

/-- Write-back of the in-place mutation of a player's active ball: the
Python mutates the object returned by `get_active_ball`, which lives at
the active index of that player's list. -/
def set_active_ball (b : BattleInstance) (player : String)
    (ball : BattleBall) : BattleInstance :=
  if player = b.p1_name then
    { b with p1_balls := b.p1_balls.set b.p1_active_index ball }
  else
    { b with p2_balls := b.p2_balls.set b.p2_active_index ball }

/-- The `for i in range(current_index + 1, len(balls))` search of
`get_next_alive_ball_index`: scan the balls found from position `i`
onward, returning the index of the first one that is not dead. -/
def findAliveFrom : List BattleBall → ℕ → Option ℕ
  | [], _ => none
  | ball :: rest, i =>
    if !ball.dead then some i else findAliveFrom rest (i + 1)

/-- `get_next_alive_ball_index(player)`: first non-dead index strictly
after the player's current active index. -/
def get_next_alive_ball_index (b : BattleInstance) (player : String) :
    Option ℕ :=
  let balls := if player = b.p1_name then b.p1_balls else b.p2_balls
  let current_index :=
    if player = b.p1_name then b.p1_active_index else b.p2_active_index
  findAliveFrom (balls.drop (current_index + 1)) (current_index + 1)

/-- `switch_to_next_ball(player)`: switch to next available ball;
returns `false` (and leaves the instance unchanged) if none remains. -/
def switch_to_next_ball (b : BattleInstance) (player : String) :
    Bool × BattleInstance :=
  match b.get_next_alive_ball_index player with
  | none => (false, b)
  | some next_index =>
    if player = b.p1_name then
      (true, { b with p1_active_index := next_index })
    else
      (true, { b with p2_active_index := next_index })

/-- `is_battle_over()`: true when at least one team has no alive ball. -/
def is_battle_over (b : BattleInstance) : Bool :=
  let p1_alive := b.p1_balls.any (fun ball => !ball.dead)
  let p2_alive := b.p2_balls.any (fun ball => !ball.dead)
  !(p1_alive && p2_alive)

/-- `get_winner()`: `Draw` if both teams are wiped, otherwise the name
of the side whose opponent is wiped, otherwise `None`. -/
def get_winner (b : BattleInstance) : Option String :=
  let p1_alive := b.p1_balls.any (fun ball => !ball.dead)
  let p2_alive := b.p2_balls.any (fun ball => !ball.dead)
  if !p1_alive && !p2_alive then some "Draw"
  else if !p1_alive then some b.p2_name
  else if !p2_alive then some b.p1_name
  else none

/-- Lines 265–278 of `_execute_single_action`: run the move with the
defend bonus applied when the defender was defending and the move is
offensive (halving the recorded damage and restoring the difference to
the defender's health), clearing the `defending` flag afterwards in
every path. Returns the result dict and the updated attacker and
defender. -/
def esa_resolve (move : BattleMove) (r : Rolls)
    (attacker defender : BattleBall) :
    MoveResult × BattleBall × BattleBall :=
  -- Apply defend bonus if defender was defending
  if defender.defending &&
      (move.move_type == MoveType.attack ||
       move.move_type == MoveType.heavy_attack) then
    -- Defender takes 50% less damage this turn
    let ead := move.execute r attacker defender
    let rd : MoveResult × BattleBall :=
      if ead.1.damage != 0 then
        let original_damage := ead.1.damage
        let halved := pyInt ((original_damage : ℚ) * (1/2))
        ({ ead.1 with
           damage := halved
           message := ead.1.message ++ " (Reduced by defend!)" },
         -- Restore the reduced damage
         { ead.2.2 with
           health := ead.2.2.health + (original_damage - halved) })
      else (ead.1, ead.2.2)
    (rd.1, ead.2.1, { rd.2 with defending := false })
  else
    let ead := move.execute r attacker defender
    (ead.1, ead.2.1,
     if ead.2.2.defending then { ead.2.2 with defending := false }
     else ead.2.2)

/-- Lines 280–292 of `_execute_single_action`: if the defender died,
append the knockout message and switch the opponent to their next ball
(the new ball does not act now). `b` is the instance with both updated
balls already written back. -/
def esa_finish (b : BattleInstance) (opponent : String)
    (result : MoveResult) (defender : BattleBall) :
    MoveResult × BattleInstance :=
  if defender.dead then
    let result := { result with
      message := result.message ++ " 💀 " ++ defender.name ++
        " was knocked out!" }
    let sw := b.switch_to_next_ball opponent
    if sw.1 then
      let next_name :=
        (Option.map (fun ball => ball.name)
          (sw.2.get_active_ball opponent)).getD ""
      ({ result with
         message := result.message ++ "\n🔄 " ++ next_name ++
           " enters the battle!" }, sw.2)
    else (result, sw.2)
  else (result, b)

/-- The body of `_execute_single_action` once attacker, defender and
move have been found: resolve the move, write both balls back at the
two active positions, and run the knockout bookkeeping. -/
def esa_apply (b : BattleInstance) (r : Rolls) (player opponent : String)
    (move : BattleMove) (attacker defender : BattleBall) :
    MoveResult × BattleInstance :=
  let rad := esa_resolve move r attacker defender
  let b2 := (b.set_active_ball player rad.2.1).set_active_ball opponent
    rad.2.2
  esa_finish b2 opponent rad.1 rad.2.2

/-- `_execute_single_action(player, action)`: resolve one player's
action against the opposing active ball, write both balls back, and on
a knockout advance the opponent's active index. Returns the result dict
and the updated instance. -/
def execute_single_action (b : BattleInstance) (r : Rolls)
    (player : String) (action : TurnAction) :
    MoveResult × BattleInstance :=
  let opponent := if player = b.p1_name then b.p2_name else b.p1_name
  match b.get_active_ball player, b.get_active_ball opponent with
  | none, _ =>
    ({ MoveResult.init with message := "Error: Ball not found" }, b)
  | _, none =>
    ({ MoveResult.init with message := "Error: Ball not found" }, b)
  | some attacker, some defender =>
    match MOVES_get action.move with
    | none =>
      ({ MoveResult.init with message := "Error: Invalid move" }, b)
    | some move => b.esa_apply r player opponent move attacker defender

/-- The body of `execute_turn` from the first-action resolution on
(source lines 231–251), once the acting order `first`/`second` has been
fixed: resolve the first action, stop early (recording the winner, but
not the round) if the battle is over, otherwise resolve the second
action if that side's active ball is alive, re-check the winner, and
append the round record to the history. -/
def execute_turn_core (b : BattleInstance) (rFirst rSecond : Rolls)
    (turn_result : TurnResult) (first second : String × TurnAction) :
    TurnResult × BattleInstance :=
  -- Execute first action
  let rb1 := b.execute_single_action rFirst first.1 first.2
  let b := rb1.2
  let turn_result := { turn_result with
    events := turn_result.events ++ [rb1.1] }
  -- Check if battle ended
  if b.is_battle_over then
    let b := { b with winner := b.get_winner.getD b.winner }
    (turn_result, b)
  else
    -- Execute second action (if their ball is still alive)
    let trb : TurnResult × BattleInstance :=
      match b.get_active_ball second.1 with
      | some second_ball =>
        if !second_ball.dead then
          let rb2 := b.execute_single_action rSecond second.1 second.2
          ({ turn_result with events := turn_result.events ++ [rb2.1] },
           rb2.2)
        else (turn_result, b)
      | none => (turn_result, b)
    let turn_result := trb.1
    let b := trb.2
    -- Check if battle ended after second action
    let b :=
      if b.is_battle_over then
        { b with winner := b.get_winner.getD b.winner }
      else b
    let b := { b with turn_history := b.turn_history ++ [turn_result] }
    (turn_result, b)

/-- `execute_turn(p1_action, p2_action)`: one round. `tieRoll` is the
`random.random()` tie-break draw (consumed only on equal attack);
`rFirst`/`rSecond` are the draws consumed by the first and second
executed action. Returns the `turn_result` dict and the updated
instance. -/
def execute_turn (b : BattleInstance) (tieRoll : ℚ) (rFirst rSecond : Rolls)
    (p1_action p2_action : TurnAction) : TurnResult × BattleInstance :=
  let b := { b with current_turn := b.current_turn + 1 }
  let turn_result : TurnResult :=
    { turn := b.current_turn
      events := []
      p1_active := b.get_active_ball b.p1_name
      p2_active := b.get_active_ball b.p2_name }
  match b.get_active_ball b.p1_name, b.get_active_ball b.p2_name with
  | none, _ => (turn_result, b)
  | _, none => (turn_result, b)
  | some p1_ball, some p2_ball =>
    -- Determine order (random if tied): higher attack goes first
    let fs : (String × TurnAction) × (String × TurnAction) :=
      if p1_ball.attack > p2_ball.attack then
        ((b.p1_name, p1_action), (b.p2_name, p2_action))
      else if p2_ball.attack > p1_ball.attack then
        ((b.p2_name, p2_action), (b.p1_name, p1_action))
      else if tieRoll < 1/2 then
        ((b.p1_name, p1_action), (b.p2_name, p2_action))
      else
        ((b.p2_name, p2_action), (b.p1_name, p1_action))
    execute_turn_core b rFirst rSecond turn_result fs.1 fs.2

end BattleInstance

/-- The fields of a database `BallInstance` that
`create_battle_from_instances` reads (`ball.ball.country`,
`ball.health`, `ball.attack`, `ball.ball.emoji_id`). -/
structure BallInstanceIn where
  country : String
  health : ℤ
  attack : ℤ
  emoji_id : String := ""
deriving DecidableEq, Repr

/-- `create_battle_from_instances(p1_name, p2_name, p1_ball_instances,
p2_ball_instances)`: raises `ValueError` unless each list has exactly 5
entries, then builds the `BattleInstance`. -/
def create_battle_from_instances (p1_name p2_name : String)
    (p1_ball_instances p2_ball_instances : List BallInstanceIn) :
    Except String BattleInstance :=
  -- Must have exactly 5 balls each
  if p1_ball_instances.length ≠ 5 ∨ p2_ball_instances.length ≠ 5 then
    .error "Each player must have exactly 5 balls!"
  else
    .ok
      { p1_name := p1_name
        p2_name := p2_name
        p1_balls := p1_ball_instances.map (fun ball =>
          BattleBall.make ball.country p1_name ball.health ball.attack
            ball.health ball.emoji_id)
        p2_balls := p2_ball_instances.map (fun ball =>
          BattleBall.make ball.country p2_name ball.health ball.attack
            ball.health ball.emoji_id) }

/-!
Concrete fixtures used by the claim checks below: a roll record on which
every probabilistic check fails (no universal miss, no heavy miss, no
crit) with damage multiplier 1, a standard attack action, and small
battle states exercising the code paths the claims talk about.
-/

/-- Rolls that miss nothing and crit nothing, with multiplier 1. -/
def noLuck : Rolls :=
  { missRoll := 1/2, heavyMissRoll := 1/2, dmgMult := 1, critRoll := 1/2 }

/-- A plain `attack` action for player `p` (indices are ignored by the
engine). -/
def atk (p : String) : TurnAction :=
  { player := p, ball_index := 0, move := "attack" }

/-- Attacker with attack 100 against a defending ball with health 10 =
max health 10: raw damage 100 knocks the defender out, then the defend
restoration puts its health at 50 while it stays dead. -/
def c1State : BattleInstance :=
  { p1_name := "A"
    p2_name := "B"
    p1_balls := [BattleBall.make "A0" "A" 100 100]
    p2_balls := [BattleBall.make "B0" "B" 10 1 0 "" false true] }

/-- Player A's ball (attack 50) one-shots B's first ball (health 1);
B's second ball (health 100) is the replacement. -/
def c2State : BattleInstance :=
  { p1_name := "A"
    p2_name := "B"
    p1_balls := [BattleBall.make "A0" "A" 100 50]
    p2_balls := [BattleBall.make "B0" "B" 1 1, BattleBall.make "B1" "B" 100 1] }

/-- An already-over match: B's only ball is dead, the winner has been
recorded as "A". B's dead ball still has the higher attack stat, so a
further (contract-violating) round lets it act first. -/
def c3State : BattleInstance :=
  { p1_name := "A"
    p2_name := "B"
    p1_balls := [BattleBall.make "A0" "A" 40 1]
    p2_balls := [BattleBall.make "B0" "B" 0 50 0 "" true false]
    winner := "A" }

/-- A's last ball has health 1; B's first ball (health 1) is knocked
out by A's first action, B's replacement then knocks out A's last ball
with the round's second action. -/
def c4State : BattleInstance :=
  { p1_name := "A"
    p2_name := "B"
    p1_balls := [BattleBall.make "A0" "A" 1 50]
    p2_balls := [BattleBall.make "B0" "B" 1 1, BattleBall.make "B1" "B" 100 1] }

/-- A's first action knocks out B's only ball, ending the battle after
the round's first action. -/
def c5State : BattleInstance :=
  { p1_name := "A"
    p2_name := "B"
    p1_balls := [BattleBall.make "A0" "A" 100 50]
    p2_balls := [BattleBall.make "B0" "B" 1 1] }

/-- Defending ball with health 30 hit by a raw damage of 40: lethal raw
damage against a defender. -/
def c7Lethal : BattleInstance :=
  { p1_name := "A"
    p2_name := "B"
    p1_balls := [BattleBall.make "A0" "A" 100 40]
    p2_balls := [BattleBall.make "B0" "B" 30 10 0 "" false true] }

/-- Defending ball with health 100 hit by a raw damage of 40: the
non-lethal case, where the halving works as described. -/
def c7Sturdy : BattleInstance :=
  { p1_name := "A"
    p2_name := "B"
    p1_balls := [BattleBall.make "A0" "A" 100 40]
    p2_balls := [BattleBall.make "B0" "B" 100 10 0 "" false true] }

/-- A three-unit team, as the spec's match-creation contract expects. -/
def threeBalls : List BallInstanceIn :=
  [⟨"u", 10, 5, ""⟩, ⟨"v", 10, 5, ""⟩, ⟨"w", 10, 5, ""⟩]

/-- A five-unit team, as `create_battle_from_instances` actually
demands. -/
def fiveBalls : List BallInstanceIn :=
  [⟨"u", 10, 5, ""⟩, ⟨"v", 10, 5, ""⟩, ⟨"w", 10, 5, ""⟩, ⟨"x", 10, 5, ""⟩,
   ⟨"y", 10, 5, ""⟩]

/-- Move and balls used to exercise `BattleMove.execute` directly. -/
def quickAttackMove : BattleMove :=
  ⟨"Quick Attack", MoveType.attack, "A standard attack", "⚔️"⟩

/-- The heavy attack move, for exercising its extra miss roll. -/
def heavyStrikeMove : BattleMove :=
  ⟨"Heavy Strike", MoveType.heavy_attack, "Powerful but risky", "💪"⟩

/-- An arbitrary attacker for direct `execute` tests. -/
def ballX : BattleBall := BattleBall.make "X" "P" 100 40

/-- An arbitrary defender for direct `execute` tests. -/
def ballY : BattleBall := BattleBall.make "Y" "Q" 90 30

/-- Rolls on which the 10% universal miss check succeeds. -/
def universalMissRolls : Rolls :=
  { missRoll := 1/20, heavyMissRoll := 1/2, dmgMult := 1, critRoll := 1/2 }

/-- Rolls on which the universal check passes but the heavy attack's
own 30% miss check fires. -/
def heavyMissRolls : Rolls :=
  { missRoll := 1/2, heavyMissRoll := 1/5, dmgMult := 1, critRoll := 1/2 }

/-!
Helper lemmas about the engine's state bookkeeping, shared by the
round-level theorems below.
-/

/-- A list with a live ball found by `get?` satisfies the
any-unit-alive predicate. -/
theorem any_not_dead_of_get? {l : List BattleBall} {i : ℕ}
    {x : BattleBall} (h : l.get? i = some x) (hx : x.dead = false) :
    (l.any fun ball => !ball.dead) = true :=
  List.any_eq_true.mpr ⟨x, List.get?_mem h, by simp [hx]⟩

/-- Writing a live ball into a list keeps the any-unit-alive predicate
true. -/
theorem any_not_dead_set {l : List BattleBall} {i : ℕ}
    (h : i < l.length) (x : BattleBall) (hx : x.dead = false) :
    ((l.set i x).any fun ball => !ball.dead) = true :=
  List.any_eq_true.mpr
    ⟨x, List.get?_mem (List.get?_set_eq_of_lt x h), by simp [hx]⟩

/-- `BattleMove.execute` never changes the attacker's `dead` flag. -/
@[simp] theorem execute_attacker_dead (m : BattleMove) (r : Rolls)
    (a d : BattleBall) : ((m.execute r a d).2.1).dead = a.dead := by
  unfold BattleMove.execute
  split
  · rfl
  · split <;> first | rfl | (split <;> rfl)

namespace BattleInstance

/-- `set_active_ball` on the player-1 side. -/
theorem set_active_ball_eq_p1 (b : BattleInstance) (p : String)
    (x : BattleBall) (h : p = b.p1_name) :
    b.set_active_ball p x =
      { b with p1_balls := b.p1_balls.set b.p1_active_index x } := by
  unfold set_active_ball
  rw [if_pos h]

/-- `set_active_ball` on the player-2 side. -/
theorem set_active_ball_eq_p2 (b : BattleInstance) (p : String)
    (x : BattleBall) (h : ¬p = b.p1_name) :
    b.set_active_ball p x =
      { b with p2_balls := b.p2_balls.set b.p2_active_index x } := by
  unfold set_active_ball
  rw [if_neg h]

/-- Ball list of `set_active_ball` on the player-1 side. -/
theorem set_active_ball_p1_balls_of_eq (b : BattleInstance) (p : String)
    (x : BattleBall) (h : p = b.p1_name) :
    (b.set_active_ball p x).p1_balls =
      b.p1_balls.set b.p1_active_index x := by
  rw [set_active_ball_eq_p1 _ _ _ h]

/-- Player 2's balls are untouched by a player-1-side write. -/
theorem set_active_ball_p2_balls_of_eq (b : BattleInstance) (p : String)
    (x : BattleBall) (h : p = b.p1_name) :
    (b.set_active_ball p x).p2_balls = b.p2_balls := by
  rw [set_active_ball_eq_p1 _ _ _ h]

/-- Ball list of `set_active_ball` on the player-2 side. -/
theorem set_active_ball_p2_balls_of_ne (b : BattleInstance) (p : String)
    (x : BattleBall) (h : ¬p = b.p1_name) :
    (b.set_active_ball p x).p2_balls =
      b.p2_balls.set b.p2_active_index x := by
  rw [set_active_ball_eq_p2 _ _ _ h]

/-- Player 1's balls are untouched by a player-2-side write. -/
theorem set_active_ball_p1_balls_of_ne (b : BattleInstance) (p : String)
    (x : BattleBall) (h : ¬p = b.p1_name) :
    (b.set_active_ball p x).p1_balls = b.p1_balls := by
  rw [set_active_ball_eq_p2 _ _ _ h]

/-- `set_active_ball` leaves every field except the ball lists alone. -/
@[simp] theorem set_active_ball_p1_name (b : BattleInstance) (p : String)
    (x : BattleBall) : (b.set_active_ball p x).p1_name = b.p1_name := by
  unfold set_active_ball
  split <;> rfl

/-- `set_active_ball` keeps `p2_name`. -/
@[simp] theorem set_active_ball_p2_name (b : BattleInstance) (p : String)
    (x : BattleBall) : (b.set_active_ball p x).p2_name = b.p2_name := by
  unfold set_active_ball
  split <;> rfl

/-- `set_active_ball` keeps `current_turn`. -/
@[simp] theorem set_active_ball_current_turn (b : BattleInstance)
    (p : String) (x : BattleBall) :
    (b.set_active_ball p x).current_turn = b.current_turn := by
  unfold set_active_ball
  split <;> rfl

/-- `set_active_ball` keeps `turn_history`. -/
@[simp] theorem set_active_ball_turn_history (b : BattleInstance)
    (p : String) (x : BattleBall) :
    (b.set_active_ball p x).turn_history = b.turn_history := by
  unfold set_active_ball
  split <;> rfl

/-- `set_active_ball` keeps `winner`. -/
@[simp] theorem set_active_ball_winner (b : BattleInstance) (p : String)
    (x : BattleBall) : (b.set_active_ball p x).winner = b.winner := by
  unfold set_active_ball
  split <;> rfl

/-- `set_active_ball` keeps `p1_active_index`. -/
@[simp] theorem set_active_ball_p1_active_index (b : BattleInstance)
    (p : String) (x : BattleBall) :
    (b.set_active_ball p x).p1_active_index = b.p1_active_index := by
  unfold set_active_ball
  split <;> rfl

/-- `set_active_ball` keeps `p2_active_index`. -/
@[simp] theorem set_active_ball_p2_active_index (b : BattleInstance)
    (p : String) (x : BattleBall) :
    (b.set_active_ball p x).p2_active_index = b.p2_active_index := by
  unfold set_active_ball
  split <;> rfl

/-- `switch_to_next_ball` only moves an active index: `p1_balls` is
untouched. -/
@[simp] theorem switch_to_next_ball_p1_balls (b : BattleInstance)
    (p : String) : (b.switch_to_next_ball p).2.p1_balls = b.p1_balls := by
  unfold switch_to_next_ball
  split
  · rfl
  · split <;> rfl

/-- `switch_to_next_ball` keeps `p2_balls`. -/
@[simp] theorem switch_to_next_ball_p2_balls (b : BattleInstance)
    (p : String) : (b.switch_to_next_ball p).2.p2_balls = b.p2_balls := by
  unfold switch_to_next_ball
  split
  · rfl
  · split <;> rfl

/-- `switch_to_next_ball` keeps `p1_name`. -/
@[simp] theorem switch_to_next_ball_p1_name (b : BattleInstance)
    (p : String) : (b.switch_to_next_ball p).2.p1_name = b.p1_name := by
  unfold switch_to_next_ball
  split
  · rfl
  · split <;> rfl

/-- `switch_to_next_ball` keeps `p2_name`. -/
@[simp] theorem switch_to_next_ball_p2_name (b : BattleInstance)
    (p : String) : (b.switch_to_next_ball p).2.p2_name = b.p2_name := by
  unfold switch_to_next_ball
  split
  · rfl
  · split <;> rfl

/-- `switch_to_next_ball` keeps `current_turn`. -/
@[simp] theorem switch_to_next_ball_current_turn (b : BattleInstance)
    (p : String) :
    (b.switch_to_next_ball p).2.current_turn = b.current_turn := by
  unfold switch_to_next_ball
  split
  · rfl
  · split <;> rfl

/-- `switch_to_next_ball` keeps `turn_history`. -/
@[simp] theorem switch_to_next_ball_turn_history (b : BattleInstance)
    (p : String) :
    (b.switch_to_next_ball p).2.turn_history = b.turn_history := by
  unfold switch_to_next_ball
  split
  · rfl
  · split <;> rfl

/-- `switch_to_next_ball` keeps `winner`. -/
@[simp] theorem switch_to_next_ball_winner (b : BattleInstance)
    (p : String) : (b.switch_to_next_ball p).2.winner = b.winner := by
  unfold switch_to_next_ball
  split
  · rfl
  · split <;> rfl

/-- `esa_resolve` never changes the attacker's `dead` flag. -/
@[simp] theorem esa_resolve_attacker_dead (move : BattleMove) (r : Rolls)
    (a d : BattleBall) :
    ((esa_resolve move r a d).2.1).dead = a.dead := by
  unfold esa_resolve
  split <;> simp

/-- `esa_finish` keeps `p1_balls`. -/
@[simp] theorem esa_finish_p1_balls (b : BattleInstance) (opp : String)
    (res : MoveResult) (d : BattleBall) :
    (esa_finish b opp res d).2.p1_balls = b.p1_balls := by
  unfold esa_finish
  split
  · dsimp only
    split <;> simp
  · rfl

/-- `esa_finish` keeps `p2_balls`. -/
@[simp] theorem esa_finish_p2_balls (b : BattleInstance) (opp : String)
    (res : MoveResult) (d : BattleBall) :
    (esa_finish b opp res d).2.p2_balls = b.p2_balls := by
  unfold esa_finish
  split
  · dsimp only
    split <;> simp
  · rfl

/-- `esa_finish` keeps `p1_name`. -/
@[simp] theorem esa_finish_p1_name (b : BattleInstance) (opp : String)
    (res : MoveResult) (d : BattleBall) :
    (esa_finish b opp res d).2.p1_name = b.p1_name := by
  unfold esa_finish
  split
  · dsimp only
    split <;> simp
  · rfl

/-- `esa_finish` keeps `p2_name`. -/
@[simp] theorem esa_finish_p2_name (b : BattleInstance) (opp : String)
    (res : MoveResult) (d : BattleBall) :
    (esa_finish b opp res d).2.p2_name = b.p2_name := by
  unfold esa_finish
  split
  · dsimp only
    split <;> simp
  · rfl

/-- `esa_finish` keeps `current_turn`. -/
@[simp] theorem esa_finish_current_turn (b : BattleInstance)
    (opp : String) (res : MoveResult) (d : BattleBall) :
    (esa_finish b opp res d).2.current_turn = b.current_turn := by
  unfold esa_finish
  split
  · dsimp only
    split <;> simp
  · rfl

/-- `esa_finish` keeps `turn_history`. -/
@[simp] theorem esa_finish_turn_history (b : BattleInstance)
    (opp : String) (res : MoveResult) (d : BattleBall) :
    (esa_finish b opp res d).2.turn_history = b.turn_history := by
  unfold esa_finish
  split
  · dsimp only
    split <;> simp
  · rfl

/-- `esa_finish` keeps `winner`. -/
@[simp] theorem esa_finish_winner (b : BattleInstance) (opp : String)
    (res : MoveResult) (d : BattleBall) :
    (esa_finish b opp res d).2.winner = b.winner := by
  unfold esa_finish
  split
  · dsimp only
    split <;> simp
  · rfl

/-- `esa_apply` keeps `current_turn`. -/
@[simp] theorem esa_apply_current_turn (b : BattleInstance) (r : Rolls)
    (p o : String) (mv : BattleMove) (a d : BattleBall) :
    (b.esa_apply r p o mv a d).2.current_turn = b.current_turn := by
  unfold esa_apply
  simp

/-- `esa_apply` keeps `p1_name`. -/
@[simp] theorem esa_apply_p1_name (b : BattleInstance) (r : Rolls)
    (p o : String) (mv : BattleMove) (a d : BattleBall) :
    (b.esa_apply r p o mv a d).2.p1_name = b.p1_name := by
  unfold esa_apply
  simp

/-- `esa_apply` keeps `p2_name`. -/
@[simp] theorem esa_apply_p2_name (b : BattleInstance) (r : Rolls)
    (p o : String) (mv : BattleMove) (a d : BattleBall) :
    (b.esa_apply r p o mv a d).2.p2_name = b.p2_name := by
  unfold esa_apply
  simp

/-- `esa_apply` keeps `turn_history`. -/
@[simp] theorem esa_apply_turn_history (b : BattleInstance) (r : Rolls)
    (p o : String) (mv : BattleMove) (a d : BattleBall) :
    (b.esa_apply r p o mv a d).2.turn_history = b.turn_history := by
  unfold esa_apply
  simp

/-- `esa_apply` keeps `winner`. -/
@[simp] theorem esa_apply_winner (b : BattleInstance) (r : Rolls)
    (p o : String) (mv : BattleMove) (a d : BattleBall) :
    (b.esa_apply r p o mv a d).2.winner = b.winner := by
  unfold esa_apply
  simp

/-- `_execute_single_action` keeps `current_turn`. -/
@[simp] theorem execute_single_action_current_turn (b : BattleInstance)
    (r : Rolls) (p : String) (act : TurnAction) :
    (b.execute_single_action r p act).2.current_turn = b.current_turn := by
  unfold execute_single_action
  dsimp only
  cases b.get_active_ball p <;>
    cases b.get_active_ball (if p = b.p1_name then b.p2_name else b.p1_name) <;>
      first
        | rfl
        | (cases MOVES_get act.move <;> first | rfl | simp)

/-- `_execute_single_action` keeps `p1_name`. -/
@[simp] theorem execute_single_action_p1_name (b : BattleInstance)
    (r : Rolls) (p : String) (act : TurnAction) :
    (b.execute_single_action r p act).2.p1_name = b.p1_name := by
  unfold execute_single_action
  dsimp only
  cases b.get_active_ball p <;>
    cases b.get_active_ball (if p = b.p1_name then b.p2_name else b.p1_name) <;>
      first
        | rfl
        | (cases MOVES_get act.move <;> first | rfl | simp)

/-- `_execute_single_action` keeps `p2_name`. -/
@[simp] theorem execute_single_action_p2_name (b : BattleInstance)
    (r : Rolls) (p : String) (act : TurnAction) :
    (b.execute_single_action r p act).2.p2_name = b.p2_name := by
  unfold execute_single_action
  dsimp only
  cases b.get_active_ball p <;>
    cases b.get_active_ball (if p = b.p1_name then b.p2_name else b.p1_name) <;>
      first
        | rfl
        | (cases MOVES_get act.move <;> first | rfl | simp)

/-- `_execute_single_action` keeps `turn_history`. -/
@[simp] theorem execute_single_action_turn_history (b : BattleInstance)
    (r : Rolls) (p : String) (act : TurnAction) :
    (b.execute_single_action r p act).2.turn_history = b.turn_history := by
  unfold execute_single_action
  dsimp only
  cases b.get_active_ball p <;>
    cases b.get_active_ball (if p = b.p1_name then b.p2_name else b.p1_name) <;>
      first
        | rfl
        | (cases MOVES_get act.move <;> first | rfl | simp)

/-- `_execute_single_action` keeps `winner`. -/
@[simp] theorem execute_single_action_winner (b : BattleInstance)
    (r : Rolls) (p : String) (act : TurnAction) :
    (b.execute_single_action r p act).2.winner = b.winner := by
  unfold execute_single_action
  dsimp only
  cases b.get_active_ball p <;>
    cases b.get_active_ball (if p = b.p1_name then b.p2_name else b.p1_name) <;>
      first
        | rfl
        | (cases MOVES_get act.move <;> first | rfl | simp)

/-- `esa_apply` acting for the player-1 side keeps player 1's team
alive: the written-back attacker keeps its (false) `dead` flag, and the
defender write-back and faint switch only touch the other side. -/
theorem esa_apply_keeps_p1_alive (b : BattleInstance) (r : Rolls)
    (o : String) (mv : BattleMove) (a d : BattleBall)
    (hno : ¬o = b.p1_name) (hlt : b.p1_active_index < b.p1_balls.length)
    (ha : a.dead = false) :
    ((b.esa_apply r b.p1_name o mv a d).2.p1_balls.any
      fun x => !x.dead) = true := by
  have h1 : (b.esa_apply r b.p1_name o mv a d).2.p1_balls
      = b.p1_balls.set b.p1_active_index (esa_resolve mv r a d).2.1 := by
    unfold esa_apply
    dsimp only
    simp [set_active_ball_p1_balls_of_ne, set_active_ball_p1_balls_of_eq,
      hno]
  rw [h1]
  exact XeBattle.any_not_dead_set hlt _ (by simp [ha])

/-- `esa_apply` acting for the player-2 side keeps player 2's team
alive. -/
theorem esa_apply_keeps_p2_alive (b : BattleInstance) (r : Rolls)
    (mv : BattleMove) (a d : BattleBall)
    (hne : ¬b.p2_name = b.p1_name)
    (hlt : b.p2_active_index < b.p2_balls.length)
    (ha : a.dead = false) :
    ((b.esa_apply r b.p2_name b.p1_name mv a d).2.p2_balls.any
      fun x => !x.dead) = true := by
  have h1 : (b.esa_apply r b.p2_name b.p1_name mv a d).2.p2_balls
      = b.p2_balls.set b.p2_active_index (esa_resolve mv r a d).2.1 := by
    unfold esa_apply
    dsimp only
    simp [set_active_ball_p2_balls_of_ne, set_active_ball_p2_balls_of_eq,
      hne]
  rw [h1]
  exact XeBattle.any_not_dead_set hlt _ (by simp [ha])

/-- `_execute_single_action` by player 1 keeps player 1's team alive,
provided the two participant names differ and player 1's active ball is
alive. -/
theorem execute_single_action_keeps_p1_alive (b : BattleInstance)
    (r : Rolls) (act : TurnAction) (p : String) (ball : BattleBall)
    (hp : p = b.p1_name) (hne : ¬b.p2_name = b.p1_name)
    (hget : b.p1_balls.get? b.p1_active_index = some ball)
    (hdead : ball.dead = false) :
    ((b.execute_single_action r p act).2.p1_balls.any
      fun x => !x.dead) = true := by
  subst hp
  have hA : b.get_active_ball b.p1_name = some ball := by
    unfold get_active_ball
    rw [if_pos rfl, hget]
  unfold execute_single_action
  dsimp only
  rw [if_pos rfl, hA]
  cases hD : b.get_active_ball b.p2_name with
  | none => exact XeBattle.any_not_dead_of_get? hget hdead
  | some defender =>
    cases hM : MOVES_get act.move with
    | none => exact XeBattle.any_not_dead_of_get? hget hdead
    | some mv =>
      exact esa_apply_keeps_p1_alive b r b.p2_name mv ball defender hne
        (List.get?_eq_some.mp hget).choose hdead

/-- `_execute_single_action` by player 2 keeps player 2's team alive,
provided the two participant names differ and player 2's active ball is
alive. -/
theorem execute_single_action_keeps_p2_alive (b : BattleInstance)
    (r : Rolls) (act : TurnAction) (p : String) (ball : BattleBall)
    (hp : p = b.p2_name) (hne : ¬b.p2_name = b.p1_name)
    (hget : b.p2_balls.get? b.p2_active_index = some ball)
    (hdead : ball.dead = false) :
    ((b.execute_single_action r p act).2.p2_balls.any
      fun x => !x.dead) = true := by
  subst hp
  have hA : b.get_active_ball b.p2_name = some ball := by
    unfold get_active_ball
    rw [if_neg hne, hget]
  unfold execute_single_action
  dsimp only
  rw [if_neg hne, hA]
  cases hD : b.get_active_ball b.p1_name with
  | none => exact XeBattle.any_not_dead_of_get? hget hdead
  | some defender =>
    cases hM : MOVES_get act.move with
    | none => exact XeBattle.any_not_dead_of_get? hget hdead
    | some mv =>
      exact esa_apply_keeps_p2_alive b r mv ball defender hne
        (List.get?_eq_some.mp hget).choose hdead

/-- A battle that is not over has a live ball on both sides. -/
theorem both_alive_of_not_over (b : BattleInstance)
    (h : b.is_battle_over = false) :
    ((b.p1_balls.any fun ball => !ball.dead) = true ∧
     (b.p2_balls.any fun ball => !ball.dead) = true) := by
  unfold is_battle_over at h
  simp only [Bool.not_eq_false', Bool.and_eq_true] at h
  exact h

/-- With a live player-1 ball, `get_winner` is player 1's name or
`None`. -/
theorem get_winner_of_p1_alive (b : BattleInstance)
    (h : (b.p1_balls.any fun ball => !ball.dead) = true) :
    b.get_winner = some b.p1_name ∨ b.get_winner = none := by
  unfold get_winner
  dsimp only
  rw [h]
  cases h2 : b.p2_balls.any fun ball => !ball.dead <;> simp [h2]

/-- With a live player-2 ball, `get_winner` is player 2's name or
`None`. -/
theorem get_winner_of_p2_alive (b : BattleInstance)
    (h : (b.p2_balls.any fun ball => !ball.dead) = true) :
    b.get_winner = some b.p2_name ∨ b.get_winner = none := by
  unfold get_winner
  dsimp only
  rw [h]
  cases h1 : b.p1_balls.any fun ball => !ball.dead <;> simp [h1]

/-- With both sides alive there is no winner yet. -/
theorem get_winner_none_of_both_alive (b : BattleInstance)
    (h1 : (b.p1_balls.any fun ball => !ball.dead) = true)
    (h2 : (b.p2_balls.any fun ball => !ball.dead) = true) :
    b.get_winner = none := by
  unfold get_winner
  dsimp only
  rw [h1, h2]
  simp

end BattleInstance

namespace BattleInstance

/-- `execute_turn_core` never touches the turn counter. -/
theorem core_current_turn (b : BattleInstance) (r1 r2 : Rolls)
    (tr : TurnResult) (first second : String × TurnAction) :
    (execute_turn_core b r1 r2 tr first second).2.current_turn =
      b.current_turn := by
  unfold execute_turn_core
  dsimp only
  repeat' split
  all_goals simp

/-- History bookkeeping of `execute_turn_core` on an empty event list:
either the returned record (with one or two events) is appended, or the
history is unchanged and the record holds exactly one event (the
battle-over-after-first-action early return). -/
theorem core_history (b : BattleInstance) (r1 r2 : Rolls)
    (tr : TurnResult) (first second : String × TurnAction)
    (htr : tr.events = []) :
    ((execute_turn_core b r1 r2 tr first second).2.turn_history =
        b.turn_history ++
          [(execute_turn_core b r1 r2 tr first second).1] ∧
      ((execute_turn_core b r1 r2 tr first second).1.events.length
          = 1 ∨
       (execute_turn_core b r1 r2 tr first second).1.events.length
          = 2)) ∨
    ((execute_turn_core b r1 r2 tr first second).2.turn_history =
        b.turn_history ∧
      (execute_turn_core b r1 r2 tr first second).1.events.length
        = 1) := by
  unfold execute_turn_core
  dsimp only
  split
  · exact Or.inr ⟨by simp, by simp [htr]⟩
  · refine Or.inl ⟨?_, ?_⟩
    · repeat' split
      all_goals simp
    · repeat' split
      all_goals simp [htr]

/-- Projections through a `winner`-field update. -/
@[simp] theorem with_winner_p1_balls (b : BattleInstance) (w : String) :
    ({ b with winner := w } : BattleInstance).p1_balls = b.p1_balls := rfl

/-- `p2_balls` through a `winner`-field update. -/
@[simp] theorem with_winner_p2_balls (b : BattleInstance) (w : String) :
    ({ b with winner := w } : BattleInstance).p2_balls = b.p2_balls := rfl

/-- `winner` of a `winner`-field update. -/
@[simp] theorem with_winner_winner (b : BattleInstance) (w : String) :
    ({ b with winner := w } : BattleInstance).winner = w := rfl

/-- `get_winner` ignores the `winner` field. -/
@[simp] theorem with_winner_get_winner (b : BattleInstance) (w : String) :
    ({ b with winner := w } : BattleInstance).get_winner = b.get_winner :=
  rfl

/-- Projections through a `turn_history` update. -/
@[simp] theorem with_history_p1_balls (b : BattleInstance)
    (h : List TurnResult) :
    ({ b with turn_history := h } : BattleInstance).p1_balls =
      b.p1_balls := rfl

/-- `p2_balls` through a `turn_history` update. -/
@[simp] theorem with_history_p2_balls (b : BattleInstance)
    (h : List TurnResult) :
    ({ b with turn_history := h } : BattleInstance).p2_balls =
      b.p2_balls := rfl

/-- `winner` through a `turn_history` update. -/
@[simp] theorem with_history_winner (b : BattleInstance)
    (h : List TurnResult) :
    ({ b with turn_history := h } : BattleInstance).winner = b.winner :=
  rfl

/-- `get_winner` ignores the `turn_history` field. -/
@[simp] theorem with_history_get_winner (b : BattleInstance)
    (h : List TurnResult) :
    ({ b with turn_history := h } : BattleInstance).get_winner =
      b.get_winner := rfl

/-- With one live side and no participant named "Draw", `get_winner`
cannot be `"Draw"`. -/
theorem get_winner_ne_draw_of_alive (b : BattleInstance)
    (hD1 : b.p1_name ≠ "Draw") (hD2 : b.p2_name ≠ "Draw")
    (h : ((b.p1_balls.any fun ball => !ball.dead) = true) ∨
         ((b.p2_balls.any fun ball => !ball.dead) = true)) :
    b.get_winner ≠ some "Draw" := by
  rcases h with h | h
  · rcases get_winner_of_p1_alive b h with hg | hg <;> rw [hg] <;>
      simp [hD1]
  · rcases get_winner_of_p2_alive b h with hg | hg <;> rw [hg] <;>
      simp [hD2]

/-- With one live side and no participant named "Draw", the value the
over-check writes into `winner` cannot be `"Draw"` either. -/
theorem winner_update_ne_draw (b : BattleInstance)
    (hD1 : b.p1_name ≠ "Draw") (hD2 : b.p2_name ≠ "Draw")
    (hw : b.winner ≠ "Draw")
    (h : ((b.p1_balls.any fun ball => !ball.dead) = true) ∨
         ((b.p2_balls.any fun ball => !ball.dead) = true)) :
    b.get_winner.getD b.winner ≠ "Draw" := by
  rcases h with h | h
  · rcases get_winner_of_p1_alive b h with hg | hg <;> rw [hg]
    · simpa using hD1
    · simpa using hw
  · rcases get_winner_of_p2_alive b h with hg | hg <;> rw [hg]
    · simpa using hD2
    · simpa using hw

/-- After one round resolved by `execute_turn_core` from a state where
both sides' active balls are alive, the participant names differ, and
nothing is already (mis)labelled "Draw", at least one team still has a
live ball and neither the `winner` field nor `get_winner()` is
`"Draw"`: the acting side of each resolved action survives its own
action. -/
theorem core_no_draw (b : BattleInstance) (r1 r2 : Rolls)
    (tr : TurnResult) (first second : String × TurnAction)
    (hne : ¬b.p2_name = b.p1_name)
    (hD1 : b.p1_name ≠ "Draw") (hD2 : b.p2_name ≠ "Draw")
    (hw : b.winner ≠ "Draw")
    (p1b p2b : BattleBall)
    (hp1 : b.p1_balls.get? b.p1_active_index = some p1b)
    (hp2 : b.p2_balls.get? b.p2_active_index = some p2b)
    (hd1 : p1b.dead = false) (hd2 : p2b.dead = false)
    (horder : (first.1 = b.p1_name ∧ second.1 = b.p2_name) ∨
              (first.1 = b.p2_name ∧ second.1 = b.p1_name)) :
    ((((execute_turn_core b r1 r2 tr first second).2.p1_balls.any
        fun x => !x.dead) = true) ∨
     (((execute_turn_core b r1 r2 tr first second).2.p2_balls.any
        fun x => !x.dead) = true)) ∧
    (execute_turn_core b r1 r2 tr first second).2.winner ≠ "Draw" ∧
    (execute_turn_core b r1 r2 tr first second).2.get_winner ≠
      some "Draw" := by
  rcases horder with ⟨hf, hs⟩ | ⟨hf, hs⟩
  · -- player 1 acts first
    unfold execute_turn_core
    dsimp only
    rw [hf, hs]
    have hal1 : (((b.execute_single_action r1 b.p1_name first.2).2).p1_balls.any
        fun x => !x.dead) = true :=
      execute_single_action_keeps_p1_alive b r1 first.2 b.p1_name p1b rfl hne
        hp1 hd1
    have hn1 : (b.execute_single_action r1 b.p1_name first.2).2.p1_name
        = b.p1_name := by simp
    have hn2 : (b.execute_single_action r1 b.p1_name first.2).2.p2_name
        = b.p2_name := by simp
    have hwp : (b.execute_single_action r1 b.p1_name first.2).2.winner
        = b.winner := by simp
    split
    · -- battle over after the first action
      refine ⟨Or.inl (by simpa using hal1), ?_, ?_⟩
      · simp only [with_winner_winner]
        exact winner_update_ne_draw _ (by rw [hn1]; exact hD1)
          (by rw [hn2]; exact hD2) (by rw [hwp]; exact hw) (Or.inl hal1)
      · simp only [with_winner_get_winner]
        exact get_winner_ne_draw_of_alive _ (by rw [hn1]; exact hD1)
          (by rw [hn2]; exact hD2) (Or.inl hal1)
    · -- battle not over after the first action
      rename_i hnov
      have hov : (b.execute_single_action r1 b.p1_name first.2).2.is_battle_over
          = false := by
        simpa using hnov
      obtain ⟨halp1, halp2⟩ := both_alive_of_not_over _ hov
      have hc : ¬((b.execute_single_action r1 b.p1_name first.2).2.is_battle_over
          = true) := by simp [hov]
      cases hsb : (b.execute_single_action r1 b.p1_name
          first.2).2.get_active_ball b.p2_name with
      | none =>
        dsimp only
        rw [if_neg hc]
        refine ⟨Or.inl (by simpa using hal1), ?_, ?_⟩
        · simp only [with_history_winner, hwp]
          exact hw
        · simp only [with_history_get_winner]
          exact get_winner_ne_draw_of_alive _ (by rw [hn1]; exact hD1)
            (by rw [hn2]; exact hD2) (Or.inl hal1)
      | some sb =>
        dsimp only
        split
        · -- the second side's (new) active ball is alive: second action runs
          rename_i hsd'
          have hne2 : ¬b.p2_name =
              (b.execute_single_action r1 b.p1_name first.2).2.p1_name := by
            rw [hn1]; exact hne
          have hsb' := hsb
          unfold get_active_ball at hsb'
          rw [if_neg hne2] at hsb'
          have hsd : sb.dead = false := by simpa using hsd'
          have hal3 := execute_single_action_keeps_p2_alive
            (b.execute_single_action r1 b.p1_name first.2).2 r2 second.2
            b.p2_name sb (by rw [hn2]) (by rw [hn1, hn2]; exact hne) hsb' hsd
          have hn1' : ((b.execute_single_action r1 b.p1_name
              first.2).2.execute_single_action r2 b.p2_name
              second.2).2.p1_name = b.p1_name := by simp
          have hn2' : ((b.execute_single_action r1 b.p1_name
              first.2).2.execute_single_action r2 b.p2_name
              second.2).2.p2_name = b.p2_name := by simp
          have hwp' : ((b.execute_single_action r1 b.p1_name
              first.2).2.execute_single_action r2 b.p2_name
              second.2).2.winner = b.winner := by simp
          split
          · refine ⟨Or.inr (by simpa using hal3), ?_, ?_⟩
            · simp only [with_history_winner, with_winner_winner]
              exact winner_update_ne_draw _ (by rw [hn1']; exact hD1)
                (by rw [hn2']; exact hD2) (by rw [hwp']; exact hw)
                (Or.inr hal3)
            · simp only [with_history_get_winner, with_winner_get_winner]
              exact get_winner_ne_draw_of_alive _ (by rw [hn1']; exact hD1)
                (by rw [hn2']; exact hD2) (Or.inr hal3)
          · refine ⟨Or.inr (by simpa using hal3), ?_, ?_⟩
            · simp only [with_history_winner, hwp']
              exact hw
            · simp only [with_history_get_winner]
              exact get_winner_ne_draw_of_alive _ (by rw [hn1']; exact hD1)
                (by rw [hn2']; exact hD2) (Or.inr hal3)
        · -- the second side's active ball is dead: the action is skipped
          dsimp only
          refine ⟨Or.inl hal1, ?_, ?_⟩
          · simpa [hwp] using hw
          · exact get_winner_ne_draw_of_alive _ (by simpa [hn1] using hD1)
              (by simpa [hn2] using hD2) (Or.inl hal1)
  · -- player 2 acts first
    unfold execute_turn_core
    dsimp only
    rw [hf, hs]
    have hal1 : (((b.execute_single_action r1 b.p2_name first.2).2).p2_balls.any
        fun x => !x.dead) = true :=
      execute_single_action_keeps_p2_alive b r1 first.2 b.p2_name p2b rfl hne
        hp2 hd2
    have hn1 : (b.execute_single_action r1 b.p2_name first.2).2.p1_name
        = b.p1_name := by simp
    have hn2 : (b.execute_single_action r1 b.p2_name first.2).2.p2_name
        = b.p2_name := by simp
    have hwp : (b.execute_single_action r1 b.p2_name first.2).2.winner
        = b.winner := by simp
    split
    · -- battle over after the first action
      refine ⟨Or.inr (by simpa using hal1), ?_, ?_⟩
      · simp only [with_winner_winner]
        exact winner_update_ne_draw _ (by rw [hn1]; exact hD1)
          (by rw [hn2]; exact hD2) (by rw [hwp]; exact hw) (Or.inr hal1)
      · simp only [with_winner_get_winner]
        exact get_winner_ne_draw_of_alive _ (by rw [hn1]; exact hD1)
          (by rw [hn2]; exact hD2) (Or.inr hal1)
    · -- battle not over after the first action
      rename_i hnov
      have hov : (b.execute_single_action r1 b.p2_name first.2).2.is_battle_over
          = false := by
        simpa using hnov
      obtain ⟨halp1, halp2⟩ := both_alive_of_not_over _ hov
      have hc : ¬((b.execute_single_action r1 b.p2_name first.2).2.is_battle_over
          = true) := by simp [hov]
      cases hsb : (b.execute_single_action r1 b.p2_name
          first.2).2.get_active_ball b.p1_name with
      | none =>
        dsimp only
        rw [if_neg hc]
        refine ⟨Or.inr (by simpa using hal1), ?_, ?_⟩
        · simp only [with_history_winner, hwp]
          exact hw
        · simp only [with_history_get_winner]
          exact get_winner_ne_draw_of_alive _ (by rw [hn1]; exact hD1)
            (by rw [hn2]; exact hD2) (Or.inr hal1)
      | some sb =>
        dsimp only
        split
        · -- the second side's (player 1) active ball is alive
          rename_i hsd'
          have heq1 : b.p1_name =
              (b.execute_single_action r1 b.p2_name first.2).2.p1_name := by
            rw [hn1]
          have hsb' := hsb
          unfold get_active_ball at hsb'
          rw [if_pos heq1] at hsb'
          have hsd : sb.dead = false := by simpa using hsd'
          have hal3 := execute_single_action_keeps_p1_alive
            (b.execute_single_action r1 b.p2_name first.2).2 r2 second.2
            b.p1_name sb (by rw [hn1]) (by rw [hn1, hn2]; exact hne) hsb' hsd
          have hn1' : ((b.execute_single_action r1 b.p2_name
              first.2).2.execute_single_action r2 b.p1_name
              second.2).2.p1_name = b.p1_name := by simp
          have hn2' : ((b.execute_single_action r1 b.p2_name
              first.2).2.execute_single_action r2 b.p1_name
              second.2).2.p2_name = b.p2_name := by simp
          have hwp' : ((b.execute_single_action r1 b.p2_name
              first.2).2.execute_single_action r2 b.p1_name
              second.2).2.winner = b.winner := by simp
          split
          · refine ⟨Or.inl (by simpa using hal3), ?_, ?_⟩
            · simp only [with_history_winner, with_winner_winner]
              exact winner_update_ne_draw _ (by rw [hn1']; exact hD1)
                (by rw [hn2']; exact hD2) (by rw [hwp']; exact hw)
                (Or.inl hal3)
            · simp only [with_history_get_winner, with_winner_get_winner]
              exact get_winner_ne_draw_of_alive _ (by rw [hn1']; exact hD1)
                (by rw [hn2']; exact hD2) (Or.inl hal3)
          · refine ⟨Or.inl (by simpa using hal3), ?_, ?_⟩
            · simp only [with_history_winner, hwp']
              exact hw
            · simp only [with_history_get_winner]
              exact get_winner_ne_draw_of_alive _ (by rw [hn1']; exact hD1)
                (by rw [hn2']; exact hD2) (Or.inl hal3)
        · -- the second side's active ball is dead: the action is skipped
          dsimp only
          refine ⟨Or.inr hal1, ?_, ?_⟩
          · simpa [hwp] using hw
          · exact get_winner_ne_draw_of_alive _ (by simpa [hn1] using hD1)
              (by simpa [hn2] using hD2) (Or.inr hal1)

/-- `execute_turn` with both active balls present reduces to
`execute_turn_core` on the incremented-turn state, an empty event list,
and an order that pairs each side's name with its own action. -/
theorem execute_turn_eq_core (b : BattleInstance) (tie : ℚ) (r1 r2 : Rolls)
    (a1 a2 : TurnAction) (p1b p2b : BattleBall)
    (hp1 : b.p1_balls.get? b.p1_active_index = some p1b)
    (hp2 : b.p2_balls.get? b.p2_active_index = some p2b)
    (hne : ¬b.p2_name = b.p1_name) :
    ∃ (tr : TurnResult) (first second : String × TurnAction),
      tr.events = [] ∧
      ((first.1 = b.p1_name ∧ second.1 = b.p2_name) ∨
       (first.1 = b.p2_name ∧ second.1 = b.p1_name)) ∧
      b.execute_turn tie r1 r2 a1 a2 =
        execute_turn_core { b with current_turn := b.current_turn + 1 }
          r1 r2 tr first second := by
  unfold execute_turn
  dsimp only
  have hA : ({ b with current_turn := b.current_turn + 1 }
      : BattleInstance).get_active_ball b.p1_name = some p1b := by
    unfold get_active_ball
    dsimp only
    rw [if_pos rfl]
    exact hp1
  have hB : ({ b with current_turn := b.current_turn + 1 }
      : BattleInstance).get_active_ball b.p2_name = some p2b := by
    unfold get_active_ball
    dsimp only
    rw [if_neg hne]
    exact hp2
  rw [hA, hB]
  dsimp only
  split
  · exact ⟨_, _, _, rfl, Or.inl ⟨rfl, rfl⟩, rfl⟩
  · split
    · exact ⟨_, _, _, rfl, Or.inr ⟨rfl, rfl⟩, rfl⟩
    · split
      · exact ⟨_, _, _, rfl, Or.inl ⟨rfl, rfl⟩, rfl⟩
      · exact ⟨_, _, _, rfl, Or.inr ⟨rfl, rfl⟩, rfl⟩

end BattleInstance

/-!
Claim theorems.
-/


/-- Claim C9: `is_battle_over()` returns true exactly when
`get_winner()` returns a non-`None` result — both are computed from the
same per-team any-unit-alive predicates. -/
theorem is_battle_over_iff_winner_exists (b : BattleInstance) :
    b.is_battle_over = b.get_winner.isSome := by
  unfold BattleInstance.is_battle_over BattleInstance.get_winner
  cases h1 : b.p1_balls.any (fun ball => !ball.dead) <;>
    cases h2 : b.p2_balls.any (fun ball => !ball.dead) <;>
      simp [h1, h2]

/-- Claim C10: a `BattleBall` constructed with `max_health` omitted or
equal to `0` gets `max_health` set to its initial health by
`__post_init__`, so the fresh unit satisfies `health == max_health`. -/
theorem fresh_ball_health_eq_max_health (n o : String) (h a : ℤ)
    (e : String) (dd df : Bool) :
    (BattleBall.make n o h a 0 e dd df).max_health = h ∧
    (BattleBall.make n o h a 0 e dd df).health =
      (BattleBall.make n o h a 0 e dd df).max_health := by
  simp [BattleBall.make]

/-- Claim C8: the universal 10% miss roll is evaluated first for every
move kind; on a miss, `execute` returns a miss event with both units
unchanged; the heavy attack rolls its own separate 30% miss only when
the universal roll did not already miss, again returning a miss event
with both units unchanged. -/
theorem universal_miss_checked_first (m : BattleMove) (r : Rolls)
    (attacker defender : BattleBall) :
    (r.missRoll < 1/10 →
      m.execute r attacker defender =
        ({ MoveResult.init with
           miss := true
           message := attacker.name ++ " missed!" }, attacker, defender)) ∧
    (¬(r.missRoll < 1/10) → m.move_type = MoveType.heavy_attack →
      r.heavyMissRoll < 3/10 →
      m.execute r attacker defender =
        ({ MoveResult.init with
           miss := true
           message := attacker.name ++ " heavy attack missed!" },
         attacker, defender)) := by
  constructor
  · intro h
    unfold BattleMove.execute
    rw [if_pos h]
  · intro h1 h2 h3
    unfold BattleMove.execute
    rw [if_neg h1]
    simp only [h2]
    rw [if_pos h3]

/-- Witness for C8: the universal miss at roll 1/20 on a normal attack,
and the heavy-only miss at rolls (1/2, 1/5) on a heavy attack, each at
concrete units. -/
theorem universal_miss_checked_first_witness :
    ((1 : ℚ)/20 < 1/10 ∧
      quickAttackMove.execute universalMissRolls ballX ballY =
        ({ MoveResult.init with
           miss := true
           message := ballX.name ++ " missed!" }, ballX, ballY)) ∧
    (¬((1 : ℚ)/2 < 1/10) ∧ (1 : ℚ)/5 < 3/10 ∧
      heavyStrikeMove.execute heavyMissRolls ballX ballY =
        ({ MoveResult.init with
           miss := true
           message := ballX.name ++ " heavy attack missed!" },
         ballX, ballY)) := by
  refine ⟨⟨by norm_num [universalMissRolls], ?_⟩,
    by norm_num [heavyMissRolls], by norm_num [heavyMissRolls], ?_⟩
  · exact (universal_miss_checked_first quickAttackMove universalMissRolls
      ballX ballY).1 (by norm_num [universalMissRolls])
  · exact (universal_miss_checked_first heavyStrikeMove heavyMissRolls
      ballX ballY).2 (by norm_num [heavyMissRolls]) rfl
      (by norm_num [heavyMissRolls])

/-- Claim C1 (code bug): a lethal raw hit on a defending unit leaves it
`dead = true` with health 50 > max_health 10 — `execute` clamps health
to 0 and marks the unit dead, then `_execute_single_action` adds the
"restored" half damage back on top of the clamped 0. This violates both
`health ≤ max_health` and `fainted ⇔ health == 0`. -/
theorem defend_overkill_breaks_health_invariant :
    ((c1State.execute_single_action noLuck "A" (atk "A")).2.p2_balls.map
      (fun ball => (ball.health, ball.max_health, ball.dead))) =
      [(50, 10, true)] := by decide

/-- Claim C2 (code bug): after A's first action knocks out B's active
ball, B's replacement (index 1) becomes active and then executes B's
action in the same round — the round has two events and A's ball has
taken the replacement's damage (100 → 99), contradicting the "the new
ball does NOT attack immediately" comment and the claim. -/
theorem replacement_acts_in_entry_round :
    (c2State.execute_turn (1/4) noLuck noLuck (atk "A") (atk "B")).1.events.length
        = 2 ∧
    (c2State.execute_turn (1/4) noLuck noLuck (atk "A") (atk "B")).2.p2_active_index
        = 1 ∧
    ((c2State.execute_turn (1/4) noLuck noLuck (atk "A") (atk "B")).2.p1_balls.map
      (fun ball => ball.health)) = [99] := by decide

/-- Claim C7 (code bug): with lethal raw damage 40 against a defending
unit with health 30, the code produces health 20 and `dead = true`
(restore-after-clamp), where halving before subtraction would give
health 10 and a live unit; with health 100 the non-lethal case does
drop health by exactly 20 (100 → 80). -/
theorem defend_halving_restored_after_clamp :
    ((c7Lethal.execute_single_action noLuck "A" (atk "A")).2.p2_balls.map
      (fun ball => (ball.health, ball.dead))) = [(20, true)] ∧
    ((c7Sturdy.execute_single_action noLuck "A" (atk "A")).2.p2_balls.map
      (fun ball => (ball.health, ball.dead))) = [(80, false)] := by decide

/-- Counterexample to claim C3: calling `execute_turn` on an
already-over match (B wiped, winner "A") does not fail — it runs the
round (turn counter 0 → 1) and reassigns the winner to "Draw" after B's
dead ball knocks out A's last ball. -/
theorem execute_turn_after_over_changes_winner :
    c3State.is_battle_over = true ∧ c3State.winner = "A" ∧
    (c3State.execute_turn (1/4) noLuck noLuck (atk "A") (atk "B")).2.winner
        = "Draw" ∧
    (c3State.execute_turn (1/4) noLuck noLuck (atk "A") (atk "B")).2.current_turn
        = 1 := by decide

/-- Counterexample to claim C4: the round's second action knocks out
A's last unit (A's team is fully dead after the round's two events),
yet the winner is "B" — the second actor's side — not "Draw", because
B's acting unit is still alive. -/
theorem second_action_team_wipe_gives_win_not_draw :
    ((c4State.execute_turn (1/4) noLuck noLuck (atk "A") (atk "B")).2.p1_balls.any
      (fun ball => !ball.dead)) = false ∧
    (c4State.execute_turn (1/4) noLuck noLuck (atk "A") (atk "B")).1.events.length
        = 2 ∧
    (c4State.execute_turn (1/4) noLuck noLuck (atk "A") (atk "B")).2.winner
        = "B" := by decide

/-- Counterexample to claim C5: a round in which the match becomes over
after the first action returns without appending anything to
`turn_history` — the round was resolved (turn counter 1, battle over)
but the history is still empty. -/
theorem round_over_after_first_action_not_recorded :
    (c5State.execute_turn (1/4) noLuck noLuck (atk "A") (atk "B")).2.is_battle_over
        = true ∧
    (c5State.execute_turn (1/4) noLuck noLuck (atk "A") (atk "B")).2.current_turn
        = 1 ∧
    (c5State.execute_turn (1/4) noLuck noLuck (atk "A") (atk "B")).2.turn_history
        = [] := by decide

/-- Counterexample to claim C6: two teams of exactly 3 units are
rejected by `create_battle_from_instances` with the "exactly 5 balls"
`ValueError`; no match is created. -/
theorem three_unit_teams_rejected :
    create_battle_from_instances "A" "B" threeBalls threeBalls =
      Except.error "Each player must have exactly 5 balls!" := by rfl

/-- Claim C6 as amended: `create_battle_from_instances` succeeds exactly
when each of the two teams consists of exactly 5 units, and raises the
team-size `ValueError` otherwise. -/
theorem create_battle_succeeds_iff_five_each (p1n p2n : String)
    (l1 l2 : List BallInstanceIn) :
    (∃ binst, create_battle_from_instances p1n p2n l1 l2 = Except.ok binst) ↔
      (l1.length = 5 ∧ l2.length = 5) := by
  unfold create_battle_from_instances
  split
  · rename_i h
    constructor
    · rintro ⟨binst, hb⟩
      exact Except.noConfusion hb
    · rintro ⟨h1, h2⟩
      rcases h with hh | hh
      · exact absurd h1 hh
      · exact absurd h2 hh
  · rename_i h
    push_neg at h
    constructor
    · intro _
      exact h
    · intro _
      exact ⟨_, rfl⟩


namespace BattleInstance

/-- Claim C3 as amended: `execute_turn` performs no is-over check, so
calling it on an already-over match is silently executed rather than
failing — the turn counter is incremented and at least one action event
is produced. (The counterexample shows the winner can then change.) -/
theorem execute_turn_on_over_silently_executes (b : BattleInstance)
    (tie : ℚ) (r1 r2 : Rolls) (a1 a2 : TurnAction) (p1b p2b : BattleBall)
    (hover : b.is_battle_over = true)
    (hne : ¬b.p2_name = b.p1_name)
    (hp1 : b.p1_balls.get? b.p1_active_index = some p1b)
    (hp2 : b.p2_balls.get? b.p2_active_index = some p2b) :
    (b.execute_turn tie r1 r2 a1 a2).2.current_turn = b.current_turn + 1 ∧
    (b.execute_turn tie r1 r2 a1 a2).1.events ≠ [] := by
  obtain ⟨tr, first, second, htr, horder, heq⟩ :=
    execute_turn_eq_core b tie r1 r2 a1 a2 p1b p2b hp1 hp2 hne
  rw [heq]
  constructor
  · exact core_current_turn _ r1 r2 tr first second
  · rcases core_history _ r1 r2 tr first second htr with ⟨_, h2⟩ | ⟨_, h2⟩
    · intro hnil
      rcases h2 with h2 | h2 <;> rw [hnil] at h2 <;> exact absurd h2 (by simp)
    · intro hnil
      rw [hnil] at h2
      exact absurd h2 (by simp)

/-- Witness for the amended C3 at the concrete already-over match
`c3State`. -/
theorem execute_turn_on_over_silently_executes_witness :
    (c3State.execute_turn (1/4) noLuck noLuck (atk "A")
        (atk "B")).2.current_turn = c3State.current_turn + 1 ∧
    (c3State.execute_turn (1/4) noLuck noLuck (atk "A")
        (atk "B")).1.events ≠ [] :=
  execute_turn_on_over_silently_executes c3State (1/4) noLuck noLuck
    (atk "A") (atk "B") (BattleBall.make "A0" "A" 40 1)
    (BattleBall.make "B0" "B" 0 50 0 "" true false)
    (by decide) (by decide) (by decide) (by decide)

/-- Claim C4 as amended: a round executed from a state where both
sides' active units are alive (with distinct participant names, neither
named "Draw", and no stale "Draw" in `winner`) never produces a Draw:
after the round at least one team still has a living unit, and neither
the `winner` field nor `get_winner()` is `"Draw"` — when an action
knocks out the opposing team's last unit, the acting side's unit is
still alive, so that side wins. -/
theorem round_from_live_actives_never_draw (b : BattleInstance)
    (tie : ℚ) (r1 r2 : Rolls) (a1 a2 : TurnAction) (p1b p2b : BattleBall)
    (hne : ¬b.p2_name = b.p1_name)
    (hD1 : b.p1_name ≠ "Draw") (hD2 : b.p2_name ≠ "Draw")
    (hw : b.winner ≠ "Draw")
    (hp1 : b.p1_balls.get? b.p1_active_index = some p1b)
    (hp2 : b.p2_balls.get? b.p2_active_index = some p2b)
    (hd1 : p1b.dead = false) (hd2 : p2b.dead = false) :
    ((((b.execute_turn tie r1 r2 a1 a2).2.p1_balls.any
        fun x => !x.dead) = true) ∨
     (((b.execute_turn tie r1 r2 a1 a2).2.p2_balls.any
        fun x => !x.dead) = true)) ∧
    (b.execute_turn tie r1 r2 a1 a2).2.winner ≠ "Draw" ∧
    (b.execute_turn tie r1 r2 a1 a2).2.get_winner ≠ some "Draw" := by
  obtain ⟨tr, first, second, htr, horder, heq⟩ :=
    execute_turn_eq_core b tie r1 r2 a1 a2 p1b p2b hp1 hp2 hne
  rw [heq]
  exact core_no_draw _ r1 r2 tr first second hne hD1 hD2 hw p1b p2b hp1 hp2
    hd1 hd2 horder

/-- Witness for the amended C4 at the concrete state `c2State` (both
active balls alive; a round in which a knockout and a switch occur). -/
theorem round_from_live_actives_never_draw_witness :
    (c2State.execute_turn (1/4) noLuck noLuck (atk "A")
        (atk "B")).2.winner ≠ "Draw" ∧
    (c2State.execute_turn (1/4) noLuck noLuck (atk "A")
        (atk "B")).2.get_winner ≠ some "Draw" :=
  (round_from_live_actives_never_draw c2State (1/4) noLuck noLuck
    (atk "A") (atk "B") (BattleBall.make "A0" "A" 100 50)
    (BattleBall.make "B0" "B" 1 1) (by decide) (by decide) (by decide)
    (by decide) (by decide) (by decide) (by decide) (by decide)).2

/-- Claim C5 as amended: the turn history is append-only — each
`execute_turn` call either appends exactly the returned round record or
leaves the history unchanged; the unchanged case happens only for
rounds with at most one resolved event (the battle-over-after-first
early return, or a missing active ball), and whenever both actions
resolved (two events) the record is appended. -/
theorem turn_history_append_only (b : BattleInstance) (tie : ℚ)
    (r1 r2 : Rolls) (a1 a2 : TurnAction) :
    ((b.execute_turn tie r1 r2 a1 a2).2.turn_history =
        b.turn_history ++ [(b.execute_turn tie r1 r2 a1 a2).1] ∨
      (b.execute_turn tie r1 r2 a1 a2).2.turn_history = b.turn_history) ∧
    ((b.execute_turn tie r1 r2 a1 a2).1.events.length = 2 →
      (b.execute_turn tie r1 r2 a1 a2).2.turn_history =
        b.turn_history ++ [(b.execute_turn tie r1 r2 a1 a2).1]) := by
  unfold execute_turn
  dsimp only
  cases hA : ({ b with current_turn := b.current_turn + 1 }
      : BattleInstance).get_active_ball b.p1_name with
  | none =>
    cases hB : ({ b with current_turn := b.current_turn + 1 }
        : BattleInstance).get_active_ball b.p2_name with
    | none => exact ⟨Or.inr rfl, fun h => absurd h (by simp)⟩
    | some pb2 => exact ⟨Or.inr rfl, fun h => absurd h (by simp)⟩
  | some pb1 =>
    cases hB : ({ b with current_turn := b.current_turn + 1 }
        : BattleInstance).get_active_ball b.p2_name with
    | none => exact ⟨Or.inr rfl, fun h => absurd h (by simp)⟩
    | some pb2 =>
      dsimp only
      split
      · rcases core_history { b with current_turn := b.current_turn + 1 }
          r1 r2 ⟨b.current_turn + 1, [], some pb1, some pb2⟩
          (b.p1_name, a1) (b.p2_name, a2) rfl with ⟨h1, _⟩ | ⟨h1, h2⟩
        · exact ⟨Or.inl h1, fun _ => h1⟩
        · exact ⟨Or.inr h1, fun hl => by rw [hl] at h2; exact absurd h2 (by simp)⟩
      · split
        · rcases core_history { b with current_turn := b.current_turn + 1 }
            r1 r2 ⟨b.current_turn + 1, [], some pb1, some pb2⟩
            (b.p2_name, a2) (b.p1_name, a1) rfl with ⟨h1, _⟩ | ⟨h1, h2⟩
          · exact ⟨Or.inl h1, fun _ => h1⟩
          · exact ⟨Or.inr h1, fun hl => by rw [hl] at h2; exact absurd h2 (by simp)⟩
        · split
          · rcases core_history { b with current_turn := b.current_turn + 1 }
              r1 r2 ⟨b.current_turn + 1, [], some pb1, some pb2⟩
              (b.p1_name, a1) (b.p2_name, a2) rfl with ⟨h1, _⟩ | ⟨h1, h2⟩
            · exact ⟨Or.inl h1, fun _ => h1⟩
            · exact ⟨Or.inr h1, fun hl => by rw [hl] at h2; exact absurd h2 (by simp)⟩
          · rcases core_history { b with current_turn := b.current_turn + 1 }
              r1 r2 ⟨b.current_turn + 1, [], some pb1, some pb2⟩
              (b.p2_name, a2) (b.p1_name, a1) rfl with ⟨h1, _⟩ | ⟨h1, h2⟩
            · exact ⟨Or.inl h1, fun _ => h1⟩
            · exact ⟨Or.inr h1, fun hl => by rw [hl] at h2; exact absurd h2 (by simp)⟩


/-- Witness for the amended C5 at `c2State`: a two-event round is
appended to the (empty) history. -/
theorem turn_history_append_only_witness :
    (c2State.execute_turn (1/4) noLuck noLuck (atk "A")
        (atk "B")).1.events.length = 2 ∧
    (c2State.execute_turn (1/4) noLuck noLuck (atk "A")
        (atk "B")).2.turn_history =
      c2State.turn_history ++
        [(c2State.execute_turn (1/4) noLuck noLuck (atk "A") (atk "B")).1] :=
  ⟨by decide,
   (turn_history_append_only c2State (1/4) noLuck noLuck (atk "A")
     (atk "B")).2 (by decide)⟩

end BattleInstance

end XeBattle
